import Mathlib

/-!
Shallow embedding of `src/server.rs` of the lndk repository: the gRPC
gateway layer (`LNDKServer` and its `Offers` implementation, the
credential extractor `check_auth_metadata`, the TLS bootstrap
`generate_tls_creds` / `collect_tls_ips`, and the BOLT12 invoice codec
`generate_bolt12_invoice_contents` / `convert_blinded_path` /
`convert_invoice_features`).

External collaborators (the LND client, the offer handler, rcgen, the
secp256k1 parser, the BOLT12 serializer) are represented by outcome
parameters: each handler takes the results of its external calls as
explicit arguments and the embedding reproduces exactly the control
flow of the Rust source around those calls, including the status each
failure is mapped to and the places where the source can panic
(`unwrap` / `expect`).
-/

namespace Lndk

/-- Status kinds of `tonic::Status` used by `src/server.rs`. -/
inductive StatusCode where
  | unauthenticated
  | invalidArgument
  | unavailable
  | internal
  deriving DecidableEq, Repr

/-- A gRPC status as produced by the handlers: a kind plus a message. -/
structure Status where
  code : StatusCode
  message : String
  deriving DecidableEq, Repr

/-- Result of running one RPC handler body: a successful response, an
error status returned to the caller, or a Rust panic (the source uses
`expect` / `unwrap` in places, which abort instead of returning). -/
inductive HandlerOutcome (α : Type) where
  | ok (response : α)
  | err (status : Status)
  | panics (msg : String)
  deriving DecidableEq, Repr

/-- Status code of an error outcome, `none` for `ok` and for a panic. -/
def HandlerOutcome.statusCode : HandlerOutcome α → Option StatusCode
  | .err s => some s.code
  | _ => none

/-- Byte predicate of `http::HeaderValue::to_str`, which backs
`tonic::metadata::MetadataValue::to_str` called by `check_auth_metadata`:
conversion to a string succeeds iff every byte is visible ASCII or tab. -/
def isVisibleAscii (b : Nat) : Bool :=
  (32 ≤ b && b < 127) || b == 9

/-- Embedding of `MetadataValue::to_str().to_string()`: yields the bytes as
a string when all of them are visible ASCII (or tab), else fails. -/
def headerValueToStr (bytes : List Nat) : Option String :=
  if bytes.all isVisibleAscii then
    some (String.mk (bytes.map Char.ofNat))
  else
    none

/-- Request metadata: an ordered list of (key, raw bytes) entries,
embedding `tonic::metadata::MetadataMap`. -/
abbrev MetadataMap := List (String × List Nat)

/-- Embedding of `MetadataMap::get`: the first entry with the given key. -/
def metadataGet (metadata : MetadataMap) (key : String) : Option (List Nat) :=
  (metadata.find? (fun entry => entry.1 == key)).map (fun entry => entry.2)

/-- Embedding of `check_auth_metadata` (src/server.rs lines 281-297): looks
up the `macaroon` metadata entry; a missing entry is Unauthenticated, a
value that is not convertible to a string is InvalidArgument. -/
def check_auth_metadata (metadata : MetadataMap) : Except Status String :=
  match metadataGet metadata "macaroon" with
  | some macaroon_hex =>
    match headerValueToStr macaroon_hex with
    | some s => .ok s
    | none => .error ⟨.invalidArgument, "Invalid macaroon string provided"⟩
  | none =>
    .error ⟨.unauthenticated,
      "No LND macaroon provided: Make sure to provide macaroon in request metadata"⟩

/-- Specification-side definition (from the claim wording, not from the
source): validity of a byte sequence as UTF-8, per the standard encoding
rules including rejection of overlong forms, surrogates and values above
U+10FFFF. Used only to compare the claimed behaviour of the credential
extractor with its actual behaviour. -/
def isValidUtf8 : List Nat → Bool
  | [] => true
  | b :: rest =>
    if b < 0x80 then isValidUtf8 rest
    else if b < 0xC2 then false
    else if b < 0xE0 then
      match rest with
      | c1 :: r => (0x80 ≤ c1 && c1 < 0xC0) && isValidUtf8 r
      | [] => false
    else if b < 0xF0 then
      match rest with
      | c1 :: c2 :: r =>
        (0x80 ≤ c1 && c1 < 0xC0) && (0x80 ≤ c2 && c2 < 0xC0)
          && (!(b == 0xE0) || 0xA0 ≤ c1) && (!(b == 0xED) || c1 < 0xA0)
          && isValidUtf8 r
      | _ => false
    else if b < 0xF5 then
      match rest with
      | c1 :: c2 :: c3 :: r =>
        (0x80 ≤ c1 && c1 < 0xC0) && (0x80 ≤ c2 && c2 < 0xC0)
          && (0x80 ≤ c3 && c3 < 0xC0)
          && (!(b == 0xF0) || 0x90 ≤ c1) && (!(b == 0xF4) || c1 < 0x90)
          && isValidUtf8 r
      | _ => false
    else false

/-- Embedding of Rust `str::split(',')` over strings as character lists:
splits at every comma, keeping empty segments; the empty string yields the
single empty segment, exactly as in Rust. -/
def splitOnComma : List Char → List (List Char)
  | [] => [[]]
  | c :: rest =>
    let r := splitOnComma rest
    if c = ',' then [] :: r
    else (c :: r.headD []) :: r.tail

/-- Specification-side inverse of comma splitting: joins segments back
with commas, used to state that splitting preserves content and order. -/
def joinComma : List (List Char) → List Char
  | [] => []
  | [t] => t
  | t :: ts => t ++ ',' :: joinComma ts

theorem splitOnComma_ne_nil (l : List Char) : splitOnComma l ≠ [] := by
  cases l with
  | nil => simp [splitOnComma]
  | cons c rest =>
    simp only [splitOnComma]
    split <;> simp

theorem splitOnComma_length (l : List Char) :
    (splitOnComma l).length = l.count ',' + 1 := by
  induction l with
  | nil => simp [splitOnComma]
  | cons c rest ih =>
    simp only [splitOnComma, List.count_cons]
    rcases hr : splitOnComma rest with _ | ⟨t, ts⟩
    · exact absurd hr (splitOnComma_ne_nil rest)
    · by_cases hc : c = ','
      · simp [hc, hr, ← ih, List.length]
      · simp [hc, hr, ← ih, List.length]

theorem joinComma_splitOnComma (l : List Char) :
    joinComma (splitOnComma l) = l := by
  induction l with
  | nil => simp [splitOnComma, joinComma]
  | cons c rest ih =>
    simp only [splitOnComma]
    rcases hr : splitOnComma rest with _ | ⟨t, ts⟩
    · exact absurd hr (splitOnComma_ne_nil rest)
    · rw [hr] at ih
      by_cases hc : c = ','
      · subst hc
        simp only [if_pos rfl]
        cases ts with
        | nil => simpa [joinComma] using ih
        | cons t2 ts2 => simpa [joinComma] using ih
      · simp only [if_neg hc, List.headD, List.tail]
        cases ts with
        | nil => simpa [joinComma] using ih
        | cons t2 ts2 => simpa [joinComma] using ih

/-- Embedding of `collect_tls_ips` (src/server.rs lines 370-372): maps an
optional comma-delimited string to the optional list of its segments. -/
def collect_tls_ips (tls_ips_str : Option (List Char)) : Option (List (List Char)) :=
  tls_ips_str.map splitOnComma

/-- Embedding of the subject-alternative-name construction inside
`generate_tls_creds` (src/server.rs lines 332-337): start from
`localhost` and push every collected ip. -/
def tlsSubjectAltNames (tls_ips_string : Option (List Char)) : List (List Char) :=
  match collect_tls_ips tls_ips_string with
  | some ips => "localhost".data :: ips
  | none => ["localhost".data]

/-- A secp256k1 public key, represented by its 33-byte compressed
encoding (what `PublicKey::encode()` produces in the source). -/
structure PublicKey where
  bytes : List Nat
  deriving DecidableEq, Repr

/-- Embedding of `lightning::blinded_path::Direction`. -/
inductive Direction where
  | nodeOne
  | nodeTwo
  deriving DecidableEq, Repr

/-- Embedding of `lightning::blinded_path::IntroductionNode`. -/
inductive IntroductionNode where
  | nodeId (pubkey : PublicKey)
  | directedShortChannelId (direction : Direction) (scid : Nat)
  deriving DecidableEq, Repr

/-- Embedding of `lightning::blinded_path::BlindedHop`. -/
structure BlindedHop where
  blinded_node_id : PublicKey
  encrypted_payload : List Nat
  deriving DecidableEq, Repr

/-- Embedding of `lightning::blinded_path::payment::BlindedPayInfo`:
the fields read by `convert_blinded_pay_info`. -/
structure BlindedPayInfo where
  fee_base_msat : Nat
  fee_proportional_millionths : Nat
  cltv_expiry_delta : Nat
  htlc_minimum_msat : Nat
  htlc_maximum_msat : Nat
  deriving DecidableEq, Repr

/-- Embedding of `lightning::blinded_path::payment::BlindedPaymentPath`:
the accessors used by the codec plus the `payinfo` field. -/
structure BlindedPaymentPath where
  introduction_node : IntroductionNode
  blinding_point : PublicKey
  blinded_hops : List BlindedHop
  payinfo : BlindedPayInfo
  deriving DecidableEq, Repr

/-- Opaque feature-bit vector of a BOLT12 invoice
(`lightning::ln::features::Bolt12InvoiceFeatures`); the codec never
inspects it, so its representation is immaterial. -/
abbrev Features := List Nat

/-- Embedding of `lightning::offers::invoice::Bolt12Invoice`: the
accessors that `generate_bolt12_invoice_contents` and `pay_invoice`
read. Timestamps are seconds (`Duration::as_secs`), the payment hash and
signature are their wire encodings. `amount` is the `amount()` accessor
(the amount embedded via the underlying offer, in millisatoshis;
currency-denominated amounts are outside this model), `amount_msats` the
`amount_msats()` accessor. -/
structure Bolt12Invoice where
  chain : String
  quantity : Option Nat
  amount : Option Nat
  amount_msats : Option Nat
  description : Option String
  payment_hash : List Nat
  created_at : Nat
  relative_expiry : Nat
  signing_pubkey : PublicKey
  signature : String
  payment_paths : List BlindedPaymentPath
  invoice_features : Features
  payer_note : Option String
  deriving DecidableEq, Repr

namespace lndkrpc

/-- Generated RPC message `lndkrpc::PublicKey`. -/
structure PublicKey where
  key : List Nat
  deriving DecidableEq, Repr

/-- Generated RPC enum `lndkrpc::Direction`. -/
inductive Direction where
  | nodeOne
  | nodeTwo
  deriving DecidableEq, Repr

/-- Generated RPC message `lndkrpc::DirectedShortChannelId`. -/
structure DirectedShortChannelId where
  direction : Direction
  scid : Nat
  deriving DecidableEq, Repr

/-- Generated RPC message `lndkrpc::IntroductionNode`. -/
structure IntroductionNode where
  node_id : Option PublicKey
  directed_short_channel_id : Option DirectedShortChannelId
  deriving DecidableEq, Repr

/-- Generated RPC message `lndkrpc::BlindedHop`. -/
structure BlindedHop where
  blinded_node_id : Option PublicKey
  encrypted_payload : List Nat
  deriving DecidableEq, Repr

/-- Generated RPC message `lndkrpc::BlindedPath`. -/
structure BlindedPath where
  introduction_node : Option IntroductionNode
  blinding_point : Option PublicKey
  blinded_hops : List BlindedHop
  deriving DecidableEq, Repr

/-- Generated RPC message `lndkrpc::BlindedPayInfo` (only the fields the
codec sets; the remaining proto fields are filled by `Default::default()`
and stay at their defaults). -/
structure BlindedPayInfo where
  fee_base_msat : Nat
  fee_proportional_millionths : Nat
  cltv_expiry_delta : Nat
  htlc_minimum_msat : Nat
  htlc_maximum_msat : Nat
  deriving DecidableEq, Repr

/-- Generated RPC message `lndkrpc::PaymentHash`. -/
structure PaymentHash where
  hash : List Nat
  deriving DecidableEq, Repr

/-- Generated RPC enum `lndkrpc::FeatureBit`; only the constructor the
source ever emits is modelled (the numeric proto value of the `as i32`
cast is injective and immaterial here). -/
inductive FeatureBit where
  | MppOpt
  deriving DecidableEq, Repr

/-- Generated RPC message `lndkrpc::PaymentPaths`. -/
structure PaymentPaths where
  blinded_pay_info : Option BlindedPayInfo
  blinded_path : Option BlindedPath
  deriving DecidableEq, Repr

/-- Generated RPC message `lndkrpc::Bolt12InvoiceContents`. -/
structure Bolt12InvoiceContents where
  chain : String
  quantity : Option Nat
  amount_msats : Option Nat
  description : Option String
  payment_hash : Option PaymentHash
  created_at : Int
  relative_expiry : Nat
  node_id : Option PublicKey
  signature : String
  payment_paths : List PaymentPaths
  features : List FeatureBit
  payer_note : Option String
  deriving DecidableEq, Repr

/-- Generated RPC message `lndkrpc::PayOfferResponse`. -/
structure PayOfferResponse where
  payment_preimage : String
  deriving DecidableEq, Repr

/-- Generated RPC message `lndkrpc::GetInvoiceResponse`. -/
structure GetInvoiceResponse where
  invoice_hex_str : String
  invoice_contents : Option Bolt12InvoiceContents
  deriving DecidableEq, Repr

/-- Generated RPC message `lndkrpc::PayInvoiceResponse`. -/
structure PayInvoiceResponse where
  payment_preimage : String
  deriving DecidableEq, Repr

end lndkrpc

/-- Embedding of `convert_public_key` (src/server.rs lines 416-419). -/
def convert_public_key (native_pub_key : PublicKey) : lndkrpc.PublicKey :=
  { key := native_pub_key.bytes }

/-- Embedding of `convert_invoice_features` (src/server.rs lines 421-423):
ignores its argument and returns the fixed one-element feature list. -/
def convert_invoice_features (_features : Features) : List lndkrpc.FeatureBit :=
  [lndkrpc.FeatureBit.MppOpt]

/-- Embedding of `convert_blinded_pay_info` (src/server.rs lines 425-436). -/
def convert_blinded_pay_info (native_info : BlindedPayInfo) : lndkrpc.BlindedPayInfo :=
  { fee_base_msat := native_info.fee_base_msat
    fee_proportional_millionths := native_info.fee_proportional_millionths
    cltv_expiry_delta := native_info.cltv_expiry_delta
    htlc_minimum_msat := native_info.htlc_minimum_msat
    htlc_maximum_msat := native_info.htlc_maximum_msat }

/-- Embedding of `convert_blinded_path` (src/server.rs lines 438-472). -/
def convert_blinded_path (native_info : BlindedPaymentPath) : lndkrpc.BlindedPath :=
  let introduction_node : lndkrpc.IntroductionNode :=
    match native_info.introduction_node with
    | .nodeId pubkey =>
      { node_id := some (convert_public_key pubkey)
        directed_short_channel_id := none }
    | .directedShortChannelId direction scid =>
      let rpc_direction : lndkrpc.Direction :=
        match direction with
        | .nodeOne => .nodeOne
        | .nodeTwo => .nodeTwo
      { node_id := none
        directed_short_channel_id := some { direction := rpc_direction, scid := scid } }
  { introduction_node := some introduction_node
    blinding_point := some (convert_public_key native_info.blinding_point)
    blinded_hops := native_info.blinded_hops.map (fun hop =>
      { blinded_node_id := some (convert_public_key hop.blinded_node_id)
        encrypted_payload := hop.encrypted_payload }) }

/-- Embedding of `extract_payment_paths` (src/server.rs lines 405-414). -/
def extract_payment_paths (invoice : Bolt12Invoice) : List lndkrpc.PaymentPaths :=
  invoice.payment_paths.map (fun path =>
    { blinded_pay_info := some (convert_blinded_pay_info path.payinfo)
      blinded_path := some (convert_blinded_path path) })

/-- Embedding of `generate_bolt12_invoice_contents` (src/server.rs lines
374-395): a total projection of the invoice into the RPC schema. -/
def generate_bolt12_invoice_contents (invoice : Bolt12Invoice) : lndkrpc.Bolt12InvoiceContents :=
  { chain := invoice.chain
    quantity := invoice.quantity
    amount_msats := invoice.amount_msats
    description := invoice.description
    payment_hash := some { hash := invoice.payment_hash }
    created_at := Int.ofNat invoice.created_at
    relative_expiry := invoice.relative_expiry
    node_id := some (convert_public_key invoice.signing_pubkey)
    signature := invoice.signature
    payment_paths := extract_payment_paths invoice
    features := convert_invoice_features invoice.invoice_features
    payer_note := invoice.payer_note }

/-- Error type of rcgen certificate generation (external crate). -/
structure RcgenError where
  msg : String
  deriving DecidableEq, Repr

/-- Embedding of `CertificateGenFailure` (src/server.rs lines 300-304).
Filesystem operations are modelled as total state updates, so the
`IoError` constructor is never produced inside the embedding; it is kept
for fidelity of the error type. -/
inductive CertificateGenFailure where
  | RcgenError (e : RcgenError)
  | IoError (msg : String)
  deriving DecidableEq, Repr

/-- Result of `rcgen::generate_simple_self_signed`: a certificate and a
key pair, each represented by its serialized PEM text. -/
structure CertifiedKey where
  cert_pem : List Char
  key_pem : List Char
  deriving DecidableEq, Repr

/-- A file on disk: its contents and its permission mode bits. -/
structure TlsFile where
  contents : List Char
  mode : Nat
  deriving DecidableEq, Repr

/-- State of the data directory relevant to `generate_tls_creds`: the
key file and the certificate file, each present or absent. -/
structure DataDir where
  keyFile : Option TlsFile
  certFile : Option TlsFile
  deriving DecidableEq, Repr

/-- Embedding of `generate_tls_creds` (src/server.rs lines 321-358) as a
state transformer on the data directory. `gen` is the external
`generate_simple_self_signed`, applied to the subject-alternative-name
list the source builds; `createMode` is the default permission mode a
freshly created file receives. When both files exist the generate branch
is skipped entirely. In the generate branch the source creates the key
file, restricts its mode to 0600, writes the key PEM, then writes the
certificate file in clear. -/
def generate_tls_creds (data_dir : DataDir)
    (gen : List (List Char) → Except RcgenError CertifiedKey)
    (tls_ips_string : Option (List Char)) (createMode : Nat) :
    DataDir × Except CertificateGenFailure Unit :=
  if data_dir.keyFile.isNone || data_dir.certFile.isNone then
    let subject_alt_names := tlsSubjectAltNames tls_ips_string
    match gen subject_alt_names with
    | .error e => (data_dir, .error (.RcgenError e))
    | .ok ck =>
      let afterCreate : DataDir := { data_dir with keyFile := some ⟨[], createMode⟩ }
      let afterPerms : DataDir := { afterCreate with keyFile := some ⟨[], 0o600⟩ }
      let afterKeyWrite : DataDir := { afterPerms with keyFile := some ⟨ck.key_pem, 0o600⟩ }
      let certMode :=
        match afterKeyWrite.certFile with
        | some f => f.mode
        | none => createMode
      ({ afterKeyWrite with certFile := some ⟨ck.cert_pem, certMode⟩ }, .ok ())
  else
    (data_dir, .ok ())

/-- Opaque handle to the backing LND node (tonic_lnd client). -/
structure LndClient where
  tag : Nat
  deriving DecidableEq, Repr

/-- Opaque resolved routing target of an offer (`get_destination`). -/
structure Destination where
  tag : Nat
  deriving DecidableEq, Repr

/-- Opaque `GetInfo` response of the node. -/
structure NodeInfo where
  tag : Nat
  deriving DecidableEq, Repr

/-- Opaque network identifier derived from the node info. -/
structure Network where
  tag : Nat
  deriving DecidableEq, Repr

/-- Opaque parsed BOLT12 offer. -/
structure Offer where
  tag : Nat
  deriving DecidableEq, Repr

/-- Opaque reference to the shared `OfferHandler`. -/
structure OfferHandlerRef where
  tag : Nat
  deriving DecidableEq, Repr

/-- Result of a successful payment as consumed by the handlers: the
field `payment_preimage` copied into the responses. -/
structure Payment where
  payment_preimage : String
  deriving DecidableEq, Repr

/-- Embedding of the `OfferError` variants that `src/server.rs`
distinguishes: `InvalidAmount` and `InvalidCurrency` are matched by
name, every other variant of the (externally defined) error enum falls
into the catch-all arm and is collapsed into `other`. -/
inductive OfferError where
  | invalidAmount (msg : String)
  | invalidCurrency
  | other (msg : String)
  deriving DecidableEq, Repr

/-- Display text of an `OfferError`. The `Display` implementation lives
in the (externally defined) offers module; only its existence matters to
the handlers, which splice it into status messages. -/
def OfferError.display : OfferError → String
  | .invalidAmount msg => msg
  | .invalidCurrency => "invalid currency"
  | .other msg => msg

/-- A payment identifier: the 32 raw bytes of
`lightning::ln::channelmanager::PaymentId`. -/
abbrev PaymentId := List Nat

/-- The shared Active Payments map (`offer_handler.active_payments`):
association list from payment identifier to in-flight invoice state. -/
abbrev ActivePayments := List (PaymentId × Bolt12Invoice)

/-- Removal from the Active Payments map (`HashMap::remove`): drops every
entry stored under the key. -/
def activeRemove (payment_id : PaymentId) (m : ActivePayments) : ActivePayments :=
  m.filter (fun entry => decide (entry.1 ≠ payment_id))

/-- Insertion into the Active Payments map (`HashMap::insert`): the new
binding replaces any previous binding of the key. -/
def activeInsert (payment_id : PaymentId) (invoice : Bolt12Invoice)
    (m : ActivePayments) : ActivePayments :=
  (payment_id, invoice) :: activeRemove payment_id m

/-- Lookup in the Active Payments map. -/
def activeLookup (payment_id : PaymentId) (m : ActivePayments) : Option Bolt12Invoice :=
  (m.find? (fun entry => decide (entry.1 = payment_id))).map (fun entry => entry.2)

/-- Hex digit characters. -/
def hexDigit (n : Nat) : Char :=
  "0123456789abcdef".data.getD n 'x'

/-- Embedding of `hex::encode`: two lowercase hex digits per byte. -/
def hexEncode (bytes : List Nat) : String :=
  String.mk ((bytes.map (fun b => [hexDigit (b / 16 % 16), hexDigit (b % 16)])).flatten)

/-- Embedding of `encode_invoice_as_hex` (src/server.rs lines 397-403):
`writeResult` is the outcome of the external BOLT12 serializer
(`invoice.write`); a serialization failure becomes an Internal status,
success is hex-encoded. -/
def encode_invoice_as_hex (writeResult : Except String (List Nat)) : Except Status String :=
  match writeResult with
  | .error e => .error ⟨.internal, "Error serializing invoice: " ++ e⟩
  | .ok buffer => .ok (hexEncode buffer)

/-- Outcomes of the external calls made by `pay_offer`, in the order the
source performs them: connect to lnd, parse the offer, resolve the
destination, `GetInfo`, derive the network, and finally
`offer_handler.pay_offer`. -/
structure PayOfferEnv where
  connect : Except String LndClient
  parseOffer : Except String Offer
  getDestination : Except String Destination
  getInfo : Except String NodeInfo
  getNetwork : Except String Network
  payOfferHandler : Except OfferError Payment

/-- Embedding of `pay_offer` (src/server.rs lines 61-133). Control flow
of the source: credential check, connect (failure is Unavailable), offer
parse (failure is InvalidArgument), destination (failure is Internal),
`GetInfo` (failure panics through `expect`), network (failure is
Internal), then the offer handler with `InvalidAmount` and
`InvalidCurrency` mapped to InvalidArgument and everything else to
Internal. -/
def pay_offer (metadata : MetadataMap) (env : PayOfferEnv) :
    HandlerOutcome lndkrpc.PayOfferResponse :=
  match check_auth_metadata metadata with
  | .error status => .err status
  | .ok _macaroon =>
    match env.connect with
    | .error e => .err ⟨.unavailable, "Could not connect to lnd: " ++ e⟩
    | .ok _client =>
      match env.parseOffer with
      | .error e =>
        .err ⟨.invalidArgument,
          "The provided offer was invalid. Please provide a valid offer in bech32 format. Error: " ++ e⟩
      | .ok _offer =>
        match env.getDestination with
        | .error e =>
          .err ⟨.internal, "Internal error: Could not get destination from offer: " ++ e⟩
        | .ok _destination =>
          match env.getInfo with
          | .error _ => .panics "failed to get info"
          | .ok _info =>
            match env.getNetwork with
            | .error e => .err ⟨.internal, e⟩
            | .ok _network =>
              match env.payOfferHandler with
              | .ok payment => .ok { payment_preimage := payment.payment_preimage }
              | .error (.invalidAmount e) => .err ⟨.invalidArgument, e⟩
              | .error .invalidCurrency =>
                .err ⟨.invalidArgument, OfferError.invalidCurrency.display⟩
              | .error e => .err ⟨.internal, "Internal error: " ++ e.display⟩

/-- Embedding of `decode_invoice` (src/server.rs lines 135-147): parses
the invoice (failure is InvalidArgument) and projects it through the
codec. The request metadata is received but never inspected — no
credential check occurs. -/
def decode_invoice (_metadata : MetadataMap)
    (parseInvoice : Except String Bolt12Invoice) :
    HandlerOutcome lndkrpc.Bolt12InvoiceContents :=
  match parseInvoice with
  | .error e => .err ⟨.invalidArgument, e⟩
  | .ok invoice => .ok (generate_bolt12_invoice_contents invoice)

/-- Outcomes of the external calls made by `get_invoice`, in source
order. `getInvoiceHandler` is `offer_handler.get_invoice`, yielding the
invoice and the payment identifier (the middle component of the source's
triple is unused and elided); `writeInvoice` is the BOLT12 serializer
outcome used by `encode_invoice_as_hex`. -/
structure GetInvoiceEnv where
  connect : Except String LndClient
  parseOffer : Except String Offer
  getDestination : Except String Destination
  getInfo : Except String NodeInfo
  getNetwork : Except String Network
  getInvoiceHandler : Except OfferError (Bolt12Invoice × PaymentId)
  writeInvoice : Except String (List Nat)

/-- Embedding of `get_invoice` (src/server.rs lines 149-227) as a state
transformer on the Active Payments map. Control flow of the source:
credential check, connect (Unavailable), offer parse (InvalidArgument),
destination (Unavailable), `GetInfo` (panics through `expect` on
failure), network (Internal), then `offer_handler.get_invoice` with the
same error mapping as `pay_offer`. Modelled from the spec: on success
`offer_handler.get_invoice` (whose body is outside src/server.rs)
inserts the resulting (invoice, payment id) into Active Payments; the
source then unconditionally removes that payment id before assembling
the response, whose hex encoding may still fail with Internal. -/
def get_invoice (metadata : MetadataMap) (env : GetInvoiceEnv)
    (active_payments : ActivePayments) :
    HandlerOutcome lndkrpc.GetInvoiceResponse × ActivePayments :=
  match check_auth_metadata metadata with
  | .error status => (.err status, active_payments)
  | .ok _macaroon =>
    match env.connect with
    | .error e => (.err ⟨.unavailable, "Could not connect to lnd: " ++ e⟩, active_payments)
    | .ok _client =>
      match env.parseOffer with
      | .error e =>
        (.err ⟨.invalidArgument,
          "The provided offer was invalid. Please provide a valid offer in bech32 format. Error: " ++ e⟩,
         active_payments)
      | .ok _offer =>
        match env.getDestination with
        | .error e => (.err ⟨.unavailable, "Could not find destination: " ++ e⟩, active_payments)
        | .ok _destination =>
          match env.getInfo with
          | .error _ => (.panics "failed to get info", active_payments)
          | .ok _info =>
            match env.getNetwork with
            | .error e => (.err ⟨.internal, e⟩, active_payments)
            | .ok _network =>
              match env.getInvoiceHandler with
              | .error (.invalidAmount e) => (.err ⟨.invalidArgument, e⟩, active_payments)
              | .error .invalidCurrency =>
                (.err ⟨.invalidArgument, OfferError.invalidCurrency.display⟩, active_payments)
              | .error e => (.err ⟨.internal, "Internal error: " ++ e.display⟩, active_payments)
              | .ok (invoice, payment_id) =>
                let afterHandler := activeInsert payment_id invoice active_payments
                let afterRemove := activeRemove payment_id afterHandler
                match encode_invoice_as_hex env.writeInvoice with
                | .error status => (.err status, afterRemove)
                | .ok hex =>
                  (.ok { invoice_hex_str := hex,
                         invoice_contents := some (generate_bolt12_invoice_contents invoice) },
                   afterRemove)

/-- Modelled from the spec: `validate_amount` lives in the offers module
(src/lndk_offers.rs), which is not part of the visible source. Per the
spec it validates the caller-supplied amount against the invoice's
embedded amount: a conflict — the invoice fixes an amount and the caller
passes a different one, or the invoice has no amount and the caller
passes none — fails, otherwise the settled amount is returned. -/
def validate_amount (invoice_amount : Option Nat) (user_amount : Option Nat) :
    Except String Nat :=
  match invoice_amount, user_amount with
  | some a, some b => if b = a then .ok a else .error "amount does not match the invoice amount"
  | some a, none => .ok a
  | none, some b => .ok b
  | none, none => .error "no amount provided"

/-- Outcomes of the external calls made by `pay_invoice`: connect, the
invoice parse, the bytes produced by the entropy source
(`messenger_utils.get_secure_random_bytes`, which become the payment
identifier), and `offer_handler.pay_invoice`. -/
structure PayInvoiceEnv where
  connect : Except String LndClient
  parseInvoice : Except String Bolt12Invoice
  randomBytes : PaymentId
  payInvoiceHandler : Except String Payment

/-- Outcome of `pay_invoice` together with its observable settlement
submission: `submitted` records the (payment identifier, amount) passed
to `offer_handler.pay_invoice`, or `none` when no submission happened. -/
structure PayInvoiceResult where
  outcome : HandlerOutcome lndkrpc.PayInvoiceResponse
  submitted : Option (PaymentId × Nat)
  deriving DecidableEq, Repr

/-- Embedding of `pay_invoice` (src/server.rs lines 229-276). Control
flow of the source: credential check, connect (Unavailable), invoice
parse (InvalidArgument), `validate_amount` against the request amount
(failure is InvalidArgument, before any settlement attempt), then the
payment identifier is minted from the entropy source and the invoice is
submitted; a submission failure is Internal. -/
def pay_invoice (metadata : MetadataMap) (request_amount : Option Nat)
    (env : PayInvoiceEnv) : PayInvoiceResult :=
  match check_auth_metadata metadata with
  | .error status => ⟨.err status, none⟩
  | .ok _macaroon =>
    match env.connect with
    | .error e => ⟨.err ⟨.unavailable, "Could not connect to lnd: " ++ e⟩, none⟩
    | .ok _client =>
      match env.parseInvoice with
      | .error e =>
        ⟨.err ⟨.invalidArgument,
          "The provided invoice was invalid. Please provide a valid invoice in hex format. Error: " ++ e⟩,
         none⟩
      | .ok invoice =>
        match validate_amount invoice.amount request_amount with
        | .error e => ⟨.err ⟨.invalidArgument, e⟩, none⟩
        | .ok amount =>
          let payment_id := env.randomBytes
          match env.payInvoiceHandler with
          | .ok payment =>
            ⟨.ok { payment_preimage := payment.payment_preimage }, some (payment_id, amount)⟩
          | .error e =>
            ⟨.err ⟨.internal, "Error paying invoice: " ++ e⟩, some (payment_id, amount)⟩

/-- The server state (src/server.rs lines 34-41). -/
structure LNDKServer where
  offer_handler : OfferHandlerRef
  node_id : PublicKey
  lnd_cert : String
  address : String
  deriving DecidableEq, Repr

/-- Outcome of a constructor whose Rust signature admits no error value:
it either produces the value or panics. -/
inductive ConstructorOutcome (α : Type) where
  | ok (a : α)
  | panics (msg : String)
  deriving DecidableEq, Repr

/-- Embedding of `LNDKServer::new` (src/server.rs lines 44-56).
`node_id_parse` is the outcome of `PublicKey::from_str(node_id)` (the
external secp256k1 parser): the source calls `unwrap()` on it, so a
parse failure panics; the return type has no error variant. -/
def LNDKServer.new (offer_handler : OfferHandlerRef)
    (node_id_parse : Option PublicKey) (lnd_cert : String) (address : String) :
    ConstructorOutcome LNDKServer :=
  match node_id_parse with
  | some pk =>
    .ok { offer_handler := offer_handler, node_id := pk,
          lnd_cert := lnd_cert, address := address }
  | none => .panics "unwrap of the node id parse result"

theorem activeRemove_activeInsert (k : PaymentId) (v : Bolt12Invoice)
    (m : ActivePayments) : activeRemove k (activeInsert k v m) = activeRemove k m := by
  simp [activeInsert, activeRemove, List.filter_filter]

/-- C1 counterexample: with the setup steps succeeded, a failure of the
node `GetInfo` call makes `pay_offer` panic through `expect` instead of
returning any status, and a failure of destination resolution makes
`get_invoice` return Unavailable instead of Internal — both contradict
the claim that every non-amount non-currency failure after setup is an
Internal status and that no panic can occur. -/
theorem offer_flow_status_counterexample :
    pay_offer [("macaroon", [97])]
      { connect := .ok ⟨0⟩, parseOffer := .ok ⟨0⟩, getDestination := .ok ⟨0⟩
        getInfo := .error "node unreachable", getNetwork := .ok ⟨0⟩
        payOfferHandler := .ok ⟨"p"⟩ } = .panics "failed to get info"
    ∧ ((get_invoice [("macaroon", [97])]
        { connect := .ok ⟨0⟩, parseOffer := .ok ⟨0⟩, getDestination := .error "gone"
          getInfo := .ok ⟨0⟩, getNetwork := .ok ⟨0⟩
          getInvoiceHandler := .error (.other "x"), writeInvoice := .ok [] }
        []).1).statusCode = some .unavailable := by
  exact ⟨rfl, rfl⟩

/-- C1 (amended): for `pay_offer` and `get_invoice`, once credential
extraction, node-client construction and offer parsing have succeeded,
the remaining work maps to statuses as follows. An `InvalidAmount` or
`InvalidCurrency` error from the offer handler is returned as
InvalidArgument in both operations, a network-query failure and any
other offer-handler error are returned as Internal, and a response
serialization failure in `get_invoice` is Internal; however a
destination-resolution failure is Internal in `pay_offer` but
Unavailable in `get_invoice`, and a failure of the node `GetInfo` call
panics (aborts through `expect`) in both operations instead of
producing a status. -/
theorem offer_flow_status_mapping
    (md : MetadataMap) (macaroon : String)
    (envP : PayOfferEnv) (envG : GetInvoiceEnv) (ap : ActivePayments)
    (clientP clientG : LndClient) (offerP offerG : Offer)
    (hmd : check_auth_metadata md = .ok macaroon)
    (hcP : envP.connect = .ok clientP) (hpP : envP.parseOffer = .ok offerP)
    (hcG : envG.connect = .ok clientG) (hpG : envG.parseOffer = .ok offerG) :
    (∀ e, envP.getDestination = .error e →
      (pay_offer md envP).statusCode = some .internal)
    ∧ (∀ d e, envP.getDestination = .ok d → envP.getInfo = .error e →
        pay_offer md envP = .panics "failed to get info")
    ∧ (∀ d i e, envP.getDestination = .ok d → envP.getInfo = .ok i →
        envP.getNetwork = .error e →
        (pay_offer md envP).statusCode = some .internal)
    ∧ (∀ d i n e, envP.getDestination = .ok d → envP.getInfo = .ok i →
        envP.getNetwork = .ok n → envP.payOfferHandler = .error (.invalidAmount e) →
        (pay_offer md envP).statusCode = some .invalidArgument)
    ∧ (∀ d i n, envP.getDestination = .ok d → envP.getInfo = .ok i →
        envP.getNetwork = .ok n → envP.payOfferHandler = .error .invalidCurrency →
        (pay_offer md envP).statusCode = some .invalidArgument)
    ∧ (∀ d i n e, envP.getDestination = .ok d → envP.getInfo = .ok i →
        envP.getNetwork = .ok n → envP.payOfferHandler = .error (.other e) →
        (pay_offer md envP).statusCode = some .internal)
    ∧ (∀ d i n p, envP.getDestination = .ok d → envP.getInfo = .ok i →
        envP.getNetwork = .ok n → envP.payOfferHandler = .ok p →
        pay_offer md envP = .ok { payment_preimage := p.payment_preimage })
    ∧ (∀ e, envG.getDestination = .error e →
        ((get_invoice md envG ap).1).statusCode = some .unavailable)
    ∧ (∀ d e, envG.getDestination = .ok d → envG.getInfo = .error e →
        (get_invoice md envG ap).1 = .panics "failed to get info")
    ∧ (∀ d i e, envG.getDestination = .ok d → envG.getInfo = .ok i →
        envG.getNetwork = .error e →
        ((get_invoice md envG ap).1).statusCode = some .internal)
    ∧ (∀ d i n e, envG.getDestination = .ok d → envG.getInfo = .ok i →
        envG.getNetwork = .ok n → envG.getInvoiceHandler = .error (.invalidAmount e) →
        ((get_invoice md envG ap).1).statusCode = some .invalidArgument)
    ∧ (∀ d i n, envG.getDestination = .ok d → envG.getInfo = .ok i →
        envG.getNetwork = .ok n → envG.getInvoiceHandler = .error .invalidCurrency →
        ((get_invoice md envG ap).1).statusCode = some .invalidArgument)
    ∧ (∀ d i n e, envG.getDestination = .ok d → envG.getInfo = .ok i →
        envG.getNetwork = .ok n → envG.getInvoiceHandler = .error (.other e) →
        ((get_invoice md envG ap).1).statusCode = some .internal)
    ∧ (∀ d i n inv pid e, envG.getDestination = .ok d → envG.getInfo = .ok i →
        envG.getNetwork = .ok n → envG.getInvoiceHandler = .ok (inv, pid) →
        envG.writeInvoice = .error e →
        ((get_invoice md envG ap).1).statusCode = some .internal) := by
  refine ⟨?_, ?_, ?_, ?_, ?_, ?_, ?_, ?_, ?_, ?_, ?_, ?_, ?_, ?_⟩
  · intro e h
    simp [pay_offer, HandlerOutcome.statusCode, hmd, hcP, hpP, h]
  · intro d e h1 h2
    simp [pay_offer, hmd, hcP, hpP, h1, h2]
  · intro d i e h1 h2 h3
    simp [pay_offer, HandlerOutcome.statusCode, hmd, hcP, hpP, h1, h2, h3]
  · intro d i n e h1 h2 h3 h4
    simp [pay_offer, HandlerOutcome.statusCode, hmd, hcP, hpP, h1, h2, h3, h4]
  · intro d i n h1 h2 h3 h4
    simp [pay_offer, HandlerOutcome.statusCode, hmd, hcP, hpP, h1, h2, h3, h4]
  · intro d i n e h1 h2 h3 h4
    simp [pay_offer, HandlerOutcome.statusCode, hmd, hcP, hpP, h1, h2, h3, h4]
  · intro d i n p h1 h2 h3 h4
    simp [pay_offer, hmd, hcP, hpP, h1, h2, h3, h4]
  · intro e h
    simp [get_invoice, HandlerOutcome.statusCode, hmd, hcG, hpG, h]
  · intro d e h1 h2
    simp [get_invoice, hmd, hcG, hpG, h1, h2]
  · intro d i e h1 h2 h3
    simp [get_invoice, HandlerOutcome.statusCode, hmd, hcG, hpG, h1, h2, h3]
  · intro d i n e h1 h2 h3 h4
    simp [get_invoice, HandlerOutcome.statusCode, hmd, hcG, hpG, h1, h2, h3, h4]
  · intro d i n h1 h2 h3 h4
    simp [get_invoice, HandlerOutcome.statusCode, hmd, hcG, hpG, h1, h2, h3, h4]
  · intro d i n e h1 h2 h3 h4
    simp [get_invoice, HandlerOutcome.statusCode, hmd, hcG, hpG, h1, h2, h3, h4]
  · intro d i n inv pid e h1 h2 h3 h4 h5
    simp [get_invoice, HandlerOutcome.statusCode, encode_invoice_as_hex,
      hmd, hcG, hpG, h1, h2, h3, h4, h5]

/-- C1 amended witness: the destination-resolution failure of
`pay_offer` mapped to Internal, at a concrete request. -/
theorem offer_flow_status_mapping_witness :
    (pay_offer [("macaroon", [97])]
      { connect := .ok ⟨0⟩, parseOffer := .ok ⟨0⟩, getDestination := .error "no route"
        getInfo := .ok ⟨0⟩, getNetwork := .ok ⟨0⟩
        payOfferHandler := .ok ⟨"p"⟩ }).statusCode = some .internal :=
  (offer_flow_status_mapping [("macaroon", [97])] "a"
    { connect := .ok ⟨0⟩, parseOffer := .ok ⟨0⟩, getDestination := .error "no route"
      getInfo := .ok ⟨0⟩, getNetwork := .ok ⟨0⟩, payOfferHandler := .ok ⟨"p"⟩ }
    { connect := .ok ⟨0⟩, parseOffer := .ok ⟨0⟩, getDestination := .ok ⟨0⟩
      getInfo := .ok ⟨0⟩, getNetwork := .ok ⟨0⟩
      getInvoiceHandler := .error .invalidCurrency, writeInvoice := .ok [] }
    [] ⟨0⟩ ⟨0⟩ ⟨0⟩ ⟨0⟩ rfl rfl rfl rfl rfl).1 "no route" rfl

theorem activeLookup_activeRemove (k : PaymentId) (m : ActivePayments) :
    activeLookup k (activeRemove k m) = none := by
  induction m with
  | nil => rfl
  | cons hd tl ih =>
    by_cases h : hd.1 = k
    · have h1 : activeRemove k (hd :: tl) = activeRemove k tl := by
        simp [activeRemove, List.filter_cons, h]
      rw [h1]
      exact ih
    · have h1 : activeRemove k (hd :: tl) = hd :: activeRemove k tl := by
        simp [activeRemove, List.filter_cons, h]
      have h2 : activeLookup k (hd :: activeRemove k tl) =
          activeLookup k (activeRemove k tl) := by
        simp [activeLookup, List.find?, h]
      rw [h1, h2]
      exact ih

/-- C2: whenever a `get_invoice` request reaches the offer handler and
obtains an invoice with its payment identifier, the final Active
Payments map holds no entry under that identifier — on both the
successful-response path and the serialization-failure path the entry
inserted during invoice retrieval is removed before the response is
assembled; indeed the final map is the input map with every binding of
that identifier removed. -/
theorem get_invoice_no_dangling_entry
    (md : MetadataMap) (env : GetInvoiceEnv) (ap : ActivePayments)
    (macaroon : String) (client : LndClient) (offer : Offer)
    (dest : Destination) (info : NodeInfo) (network : Network)
    (invoice : Bolt12Invoice) (payment_id : PaymentId)
    (hmd : check_auth_metadata md = .ok macaroon)
    (hc : env.connect = .ok client) (hp : env.parseOffer = .ok offer)
    (hd : env.getDestination = .ok dest) (hi : env.getInfo = .ok info)
    (hn : env.getNetwork = .ok network)
    (hh : env.getInvoiceHandler = .ok (invoice, payment_id)) :
    activeLookup payment_id (get_invoice md env ap).2 = none
    ∧ (get_invoice md env ap).2 = activeRemove payment_id ap := by
  have hmap : (get_invoice md env ap).2 = activeRemove payment_id ap := by
    rcases hw : env.writeInvoice with e | buffer <;>
      simp [get_invoice, encode_invoice_as_hex, activeRemove_activeInsert,
        hmd, hc, hp, hd, hi, hn, hh, hw]
  exact ⟨hmap ▸ activeLookup_activeRemove payment_id ap, hmap⟩

/-- C2 witness: a concrete successful `get_invoice` run starting from a
map already holding an unrelated entry leaves no entry under the
request's payment identifier. -/
theorem get_invoice_no_dangling_entry_witness :
    activeLookup [7]
      ((get_invoice [("macaroon", [97])]
        { connect := .ok ⟨0⟩, parseOffer := .ok ⟨0⟩, getDestination := .ok ⟨0⟩
          getInfo := .ok ⟨0⟩, getNetwork := .ok ⟨0⟩
          getInvoiceHandler :=
            .ok (⟨"c", none, none, none, none, [1], 0, 0, ⟨[2]⟩, "s", [], [], none⟩, [7])
          writeInvoice := .ok [255] }
        [([9], ⟨"c", none, none, none, none, [1], 0, 0, ⟨[2]⟩, "s", [], [], none⟩)]).2)
      = none :=
  (get_invoice_no_dangling_entry [("macaroon", [97])]
    { connect := .ok ⟨0⟩, parseOffer := .ok ⟨0⟩, getDestination := .ok ⟨0⟩
      getInfo := .ok ⟨0⟩, getNetwork := .ok ⟨0⟩
      getInvoiceHandler :=
        .ok (⟨"c", none, none, none, none, [1], 0, 0, ⟨[2]⟩, "s", [], [], none⟩, [7])
      writeInvoice := .ok [255] }
    [([9], ⟨"c", none, none, none, none, [1], 0, 0, ⟨[2]⟩, "s", [], [], none⟩)]
    "a" ⟨0⟩ ⟨0⟩ ⟨0⟩ ⟨0⟩ ⟨0⟩
    ⟨"c", none, none, none, none, [1], 0, 0, ⟨[2]⟩, "s", [], [], none⟩ [7]
    rfl rfl rfl rfl rfl rfl rfl).1

/-- C4: when the request metadata holds no `macaroon` entry, `pay_offer`,
`get_invoice` and `pay_invoice` each fail Unauthenticated whatever the
outcomes of the external calls would have been (so in particular before
any node contact: the result does not depend on the node-side outcomes,
the Active Payments map is untouched and no settlement is submitted);
`decode_invoice` gives the same result for every metadata map and
succeeds on a well-parsed invoice with no credential supplied. -/
theorem missing_macaroon_behaviour
    (md : MetadataMap) (hmd : metadataGet md "macaroon" = none) :
    (∀ env : PayOfferEnv, (pay_offer md env).statusCode = some .unauthenticated)
    ∧ (∀ (env : GetInvoiceEnv) (ap : ActivePayments),
        ((get_invoice md env ap).1).statusCode = some .unauthenticated
        ∧ (get_invoice md env ap).2 = ap)
    ∧ (∀ (amt : Option Nat) (env : PayInvoiceEnv),
        ((pay_invoice md amt env).outcome).statusCode = some .unauthenticated
        ∧ (pay_invoice md amt env).submitted = none)
    ∧ (∀ (md2 : MetadataMap) (p : Except String Bolt12Invoice),
        decode_invoice md p = decode_invoice md2 p)
    ∧ (∀ invoice : Bolt12Invoice,
        decode_invoice md (.ok invoice) = .ok (generate_bolt12_invoice_contents invoice)) := by
  have hauth : check_auth_metadata md =
      .error ⟨.unauthenticated,
        "No LND macaroon provided: Make sure to provide macaroon in request metadata"⟩ := by
    simp [check_auth_metadata, hmd]
  refine ⟨?_, ?_, ?_, ?_, ?_⟩
  · intro env
    simp [pay_offer, HandlerOutcome.statusCode, hauth]
  · intro env ap
    constructor <;> simp [get_invoice, HandlerOutcome.statusCode, hauth]
  · intro amt env
    constructor <;> simp [pay_invoice, HandlerOutcome.statusCode, hauth]
  · intro md2 p
    rfl
  · intro invoice
    rfl

/-- C4 witness: concrete credential-free requests — the three
node-contacting handlers fail Unauthenticated while `decode_invoice`
succeeds. -/
theorem missing_macaroon_behaviour_witness :
    (pay_offer [("other", [97])]
      { connect := .ok ⟨0⟩, parseOffer := .ok ⟨0⟩, getDestination := .ok ⟨0⟩
        getInfo := .ok ⟨0⟩, getNetwork := .ok ⟨0⟩
        payOfferHandler := .ok ⟨"p"⟩ }).statusCode = some .unauthenticated
    ∧ decode_invoice [("other", [97])]
        (.ok ⟨"c", none, none, none, none, [1], 0, 0, ⟨[2]⟩, "s", [], [], none⟩) =
      .ok (generate_bolt12_invoice_contents
        ⟨"c", none, none, none, none, [1], 0, 0, ⟨[2]⟩, "s", [], [], none⟩) :=
  ⟨(missing_macaroon_behaviour [("other", [97])] rfl).1
    { connect := .ok ⟨0⟩, parseOffer := .ok ⟨0⟩, getDestination := .ok ⟨0⟩
      getInfo := .ok ⟨0⟩, getNetwork := .ok ⟨0⟩, payOfferHandler := .ok ⟨"p"⟩ },
   (missing_macaroon_behaviour [("other", [97])] rfl).2.2.2.2
    ⟨"c", none, none, none, none, [1], 0, 0, ⟨[2]⟩, "s", [], [], none⟩⟩

/-- C6: in `pay_invoice`, once the credential, the connection and the
invoice parse have succeeded, a conflict between the caller-supplied
amount and the invoice's embedded amount fails InvalidArgument with no
settlement submitted; otherwise the invoice is submitted for settlement
under the payment identifier minted from the entropy source together
with the validated amount, a successful settlement returns the payment
preimage and a settlement failure is returned as Internal. -/
theorem pay_invoice_behaviour
    (md : MetadataMap) (macaroon : String) (request_amount : Option Nat)
    (env : PayInvoiceEnv) (client : LndClient) (invoice : Bolt12Invoice)
    (hmd : check_auth_metadata md = .ok macaroon)
    (hc : env.connect = .ok client)
    (hp : env.parseInvoice = .ok invoice) :
    (∀ e, validate_amount invoice.amount request_amount = .error e →
      ((pay_invoice md request_amount env).outcome).statusCode = some .invalidArgument
      ∧ (pay_invoice md request_amount env).submitted = none)
    ∧ (∀ a, validate_amount invoice.amount request_amount = .ok a →
        (pay_invoice md request_amount env).submitted = some (env.randomBytes, a)
        ∧ (∀ p, env.payInvoiceHandler = .ok p →
            (pay_invoice md request_amount env).outcome =
              .ok { payment_preimage := p.payment_preimage })
        ∧ (∀ e, env.payInvoiceHandler = .error e →
            ((pay_invoice md request_amount env).outcome).statusCode = some .internal)) := by
  refine ⟨?_, ?_⟩
  · intro e h
    constructor <;> simp [pay_invoice, HandlerOutcome.statusCode, hmd, hc, hp, h]
  · intro a h
    refine ⟨?_, ?_, ?_⟩
    · rcases hs : env.payInvoiceHandler with e | p <;>
        simp [pay_invoice, hmd, hc, hp, h, hs]
    · intro p hs
      simp [pay_invoice, hmd, hc, hp, h, hs]
    · intro e hs
      simp [pay_invoice, HandlerOutcome.statusCode, hmd, hc, hp, h, hs]

/-- C6 witness: a concrete conflicting amount (invoice fixes 5, caller
passes 6) is rejected as InvalidArgument with nothing submitted. -/
theorem pay_invoice_behaviour_witness :
    ((pay_invoice [("macaroon", [97])] (some 6)
      { connect := .ok ⟨0⟩
        parseInvoice := .ok ⟨"c", none, some 5, none, none, [1], 0, 0, ⟨[2]⟩, "s", [], [], none⟩
        randomBytes := [1, 2], payInvoiceHandler := .ok ⟨"p"⟩ }).outcome).statusCode =
      some .invalidArgument :=
  ((pay_invoice_behaviour [("macaroon", [97])] "a" (some 6)
    { connect := .ok ⟨0⟩
      parseInvoice := .ok ⟨"c", none, some 5, none, none, [1], 0, 0, ⟨[2]⟩, "s", [], [], none⟩
      randomBytes := [1, 2], payInvoiceHandler := .ok ⟨"p"⟩ }
    ⟨0⟩ ⟨"c", none, some 5, none, none, [1], 0, 0, ⟨[2]⟩, "s", [], [], none⟩
    rfl rfl rfl).1 "amount does not match the invoice amount" rfl).1

/-- C3 counterexample: the claim says an empty input string produces no
extra subject-alternative names, but `collect_tls_ips` maps the empty
string to the one-element list holding the empty token (Rust `split`
on the empty string yields one empty segment), so the SAN list is
`localhost` followed by an empty name, not `localhost` alone. -/
theorem collect_tls_ips_empty_string_counterexample :
    collect_tls_ips (some []) = some [[]]
    ∧ tlsSubjectAltNames (some []) ≠ ["localhost".data] := by
  exact ⟨rfl, by decide⟩

/-- C3 (amended): for absent input `collect_tls_ips` returns no list and
the SAN list is exactly `localhost`; for any present string (the empty
string included) it returns the list of comma-separated segments —
whose length is the number of commas plus one and which joins back with
commas to the original string, so segments are preserved in order — and
the SAN list is `localhost` followed by those segments. In particular
the empty string contributes one empty extra SAN. -/
theorem collect_tls_ips_spec :
    collect_tls_ips none = none
    ∧ tlsSubjectAltNames none = ["localhost".data]
    ∧ ∀ s : List Char,
        collect_tls_ips (some s) = some (splitOnComma s)
        ∧ (splitOnComma s).length = s.count ',' + 1
        ∧ joinComma (splitOnComma s) = s
        ∧ tlsSubjectAltNames (some s) = "localhost".data :: splitOnComma s := by
  refine ⟨rfl, rfl, fun s => ⟨rfl, splitOnComma_length s, joinComma_splitOnComma s, rfl⟩⟩

/-- C5: when both the key file and the certificate file already exist in
the data directory, `generate_tls_creds` performs no filesystem change
(the resulting directory state is exactly the input state, so contents
and permission bits of both files are untouched) and returns success. -/
theorem generate_tls_creds_idempotent (data_dir : DataDir)
    (gen : List (List Char) → Except RcgenError CertifiedKey)
    (tls_ips_string : Option (List Char)) (createMode : Nat)
    (k c : TlsFile)
    (hk : data_dir.keyFile = some k) (hc : data_dir.certFile = some c) :
    generate_tls_creds data_dir gen tls_ips_string createMode = (data_dir, .ok ()) := by
  simp [generate_tls_creds, hk, hc]

/-- C5 witness: a directory holding both files is returned unchanged
with success, at a concrete input. -/
theorem generate_tls_creds_idempotent_witness :
    generate_tls_creds ⟨some ⟨['k'], 0o600⟩, some ⟨['c'], 0o644⟩⟩
        (fun _ => .error ⟨"unused"⟩) (some ['1']) 0o644 =
      (⟨some ⟨['k'], 0o600⟩, some ⟨['c'], 0o644⟩⟩, .ok ()) :=
  generate_tls_creds_idempotent _ _ _ _ _ _ rfl rfl

/-- C7: the blinded-path conversion encodes a node-id introduction node
with the node-id field set and the directed-short-channel-id field
absent, a (direction, scid) introduction node with the node-id field
absent and the channel-id field set with the direction mapped
node-one to node-one and node-two to node-two; the two fields are never
both set and never both absent; and the output hops carry each hop's
blinded node id and its encrypted payload byte-for-byte in order. -/
theorem convert_blinded_path_spec (path : BlindedPaymentPath) :
    (∀ pk, path.introduction_node = .nodeId pk →
      (convert_blinded_path path).introduction_node =
        some { node_id := some (convert_public_key pk)
               directed_short_channel_id := none })
    ∧ (∀ scid, path.introduction_node = .directedShortChannelId .nodeOne scid →
        (convert_blinded_path path).introduction_node =
          some { node_id := none
                 directed_short_channel_id := some { direction := .nodeOne, scid := scid } })
    ∧ (∀ scid, path.introduction_node = .directedShortChannelId .nodeTwo scid →
        (convert_blinded_path path).introduction_node =
          some { node_id := none
                 directed_short_channel_id := some { direction := .nodeTwo, scid := scid } })
    ∧ (∀ intro, (convert_blinded_path path).introduction_node = some intro →
        (intro.node_id.isSome ∧ intro.directed_short_channel_id = none)
        ∨ (intro.node_id = none ∧ intro.directed_short_channel_id.isSome))
    ∧ (convert_blinded_path path).blinded_hops =
        path.blinded_hops.map (fun hop =>
          { blinded_node_id := some (convert_public_key hop.blinded_node_id)
            encrypted_payload := hop.encrypted_payload }) := by
  refine ⟨?_, ?_, ?_, ?_, ?_⟩
  · intro pk h
    simp [convert_blinded_path, h]
  · intro scid h
    simp [convert_blinded_path, h]
  · intro scid h
    simp [convert_blinded_path, h]
  · intro intro h
    rcases hi : path.introduction_node with pk | ⟨d, scid⟩
    · simp [convert_blinded_path, hi] at h
      subst h
      left
      exact ⟨rfl, rfl⟩
    · cases d
      · simp [convert_blinded_path, hi] at h
        subst h
        right
        exact ⟨rfl, rfl⟩
      · simp [convert_blinded_path, hi] at h
        subst h
        right
        exact ⟨rfl, rfl⟩
  · rcases hi : path.introduction_node with pk | ⟨d, scid⟩ <;>
      simp [convert_blinded_path, hi]

/-- C7 witness: the conversion evaluated on a concrete two-hop path with
a (direction, scid) introduction node. -/
theorem convert_blinded_path_spec_witness :
    (convert_blinded_path
      { introduction_node := .directedShortChannelId .nodeTwo 77
        blinding_point := ⟨[2]⟩
        blinded_hops := [⟨⟨[3]⟩, [10, 11]⟩, ⟨⟨[4]⟩, [12]⟩]
        payinfo := ⟨1, 2, 3, 4, 5⟩ }).introduction_node =
      some { node_id := none
             directed_short_channel_id := some { direction := .nodeTwo, scid := 77 } } :=
  (convert_blinded_path_spec _).2.2.1 77 rfl

/-- C8: the features field of the produced RPC invoice contents is the
fixed one-element list holding MppOpt for every invoice, so any two
invoices (in particular two differing only in their feature vectors)
yield identical features fields. -/
theorem convert_invoice_features_fixed :
    (∀ invoice : Bolt12Invoice,
      (generate_bolt12_invoice_contents invoice).features = [lndkrpc.FeatureBit.MppOpt])
    ∧ ∀ i1 i2 : Bolt12Invoice,
        (generate_bolt12_invoice_contents i1).features =
          (generate_bolt12_invoice_contents i2).features := by
  exact ⟨fun _ => rfl, fun _ _ => rfl⟩

/-- C9 counterexample: the two bytes 0xC3 0xA9 are valid UTF-8 (the
character with code point 0xE9), yet `check_auth_metadata` rejects a
`macaroon` entry holding them with InvalidArgument instead of returning
the credential, because the underlying header-value conversion demands
visible ASCII, not merely valid UTF-8. -/
theorem check_auth_metadata_utf8_counterexample :
    isValidUtf8 [195, 169] = true
    ∧ check_auth_metadata [("macaroon", [195, 169])] =
        .error ⟨.invalidArgument, "Invalid macaroon string provided"⟩ := by
  exact ⟨rfl, rfl⟩

/-- C9 (amended): the credential extractor returns exactly one of three
outcomes — a missing `macaroon` key fails Unauthenticated with the
message instructing the caller to supply the macaroon; a present value
containing any byte that is not visible ASCII or tab (even when the
bytes are valid UTF-8) fails InvalidArgument; a value of visible-ASCII
bytes is returned as a string unchanged. -/
theorem check_auth_metadata_cases (md : MetadataMap) :
    (metadataGet md "macaroon" = none →
      check_auth_metadata md =
        .error ⟨.unauthenticated,
          "No LND macaroon provided: Make sure to provide macaroon in request metadata"⟩)
    ∧ (∀ bytes, metadataGet md "macaroon" = some bytes →
        (bytes.all isVisibleAscii = false →
          check_auth_metadata md =
            .error ⟨.invalidArgument, "Invalid macaroon string provided"⟩)
        ∧ (bytes.all isVisibleAscii = true →
            check_auth_metadata md = .ok (String.mk (bytes.map Char.ofNat)))) := by
  refine ⟨fun h => by simp [check_auth_metadata, h], fun bytes h => ⟨?_, ?_⟩⟩
  · intro hbad
    simp [check_auth_metadata, h, headerValueToStr, hbad]
  · intro hgood
    simp [check_auth_metadata, h, headerValueToStr, hgood]

/-- C9 witness: the three outcomes evaluated on concrete metadata maps. -/
theorem check_auth_metadata_cases_witness :
    check_auth_metadata [("other", [97])] =
      .error ⟨.unauthenticated,
        "No LND macaroon provided: Make sure to provide macaroon in request metadata"⟩
    ∧ check_auth_metadata [("macaroon", [200])] =
        .error ⟨.invalidArgument, "Invalid macaroon string provided"⟩
    ∧ check_auth_metadata [("macaroon", [97, 98])] = .ok "ab" := by
  refine ⟨(check_auth_metadata_cases [("other", [97])]).1 rfl,
    ((check_auth_metadata_cases [("macaroon", [200])]).2 [200] rfl).1 rfl,
    ?_⟩
  have h := ((check_auth_metadata_cases [("macaroon", [97, 98])]).2 [97, 98] rfl).2 rfl
  simpa using h

/-- C10: the constructor has no recoverable failure path — its outcome
type carries no error variant — and when the node-id string fails the
secp256k1 parse (the parse outcome is the constructor argument, since
the parser itself is an external library) the `unwrap` in the source
panics; on a successful parse the server value is built from the parts. -/
theorem lndkserver_new_panics (offer_handler : OfferHandlerRef)
    (node_id_parse : Option PublicKey) (lnd_cert address : String) :
    (node_id_parse = none →
      LNDKServer.new offer_handler node_id_parse lnd_cert address =
        .panics "unwrap of the node id parse result")
    ∧ (∀ pk, node_id_parse = some pk →
        LNDKServer.new offer_handler node_id_parse lnd_cert address =
          .ok { offer_handler := offer_handler, node_id := pk
                lnd_cert := lnd_cert, address := address })
    ∧ ((∃ s, LNDKServer.new offer_handler node_id_parse lnd_cert address = .ok s)
        ∨ (∃ m, LNDKServer.new offer_handler node_id_parse lnd_cert address = .panics m)) := by
  refine ⟨fun h => by simp [LNDKServer.new, h], fun pk h => by simp [LNDKServer.new, h], ?_⟩
  cases node_id_parse with
  | none => exact Or.inr ⟨_, rfl⟩
  | some pk => exact Or.inl ⟨_, rfl⟩

/-- C10 witness: a failed parse panics the constructor at a concrete
input. -/
theorem lndkserver_new_panics_witness :
    LNDKServer.new ⟨0⟩ none "cert" "addr" = .panics "unwrap of the node id parse result" :=
  (lndkserver_new_panics ⟨0⟩ none "cert" "addr").1 rfl

end Lndk
